import Mathlib

/-!
Shallow embedding of the Zermatt ski planner route-calculation core
(`src/lib/routeCalculations.ts`, complete variant with the A* path finder).

Modelling conventions:
* JavaScript numbers are modelled as rationals (`ℚ`); `Math.round` becomes
  `jsRound q = ⌊q + 1/2⌋`, which is what `Math.round` computes.
* The floating-point `haversineDistance` is abstracted as a distance
  function `hdist` carried by the environment (`Env`); every claim about
  "the haversine distance" is stated relative to this function.
* The catalog globals (`lifts`, `slopes`) become fields of `Env`.
* JavaScript `null`/`undefined` propagation (e.g. `coords[0]` of an empty
  array, `lift?.properties`) is modelled with `Option`.
* The A* `while` loop with its `iterations < maxIterations` guard is
  modelled as structural recursion on `fuel = maxIterations - iterations`;
  `fuel = 0` at exit corresponds exactly to `iterations >= maxIterations`.
-/

attribute [local semireducible] Rat.add Rat.mul Rat.sub Rat.inv

/-- A `[longitude, latitude]` coordinate pair. -/
abbrev Coord : Type := ℚ × ℚ

/-- Slope difficulty, totally ordered green < blue < red < black. -/
inductive Difficulty : Type
  | green
  | blue
  | red
  | black
deriving DecidableEq, Repr

/-- Discriminant of a route segment: lift or slope. -/
inductive SegType : Type
  | lift
  | slope
deriving DecidableEq, Repr

/-- Position selector of a `RoutePoint`: the entry (`'start'`) or the exit
(`'end'`) of the referenced segment. -/
inductive PointPosition : Type
  | start
  | endPos
deriving DecidableEq, Repr

/-- A lift feature: the fields of `LiftProperties` plus its geometry that the
route-calculation core reads. -/
structure LiftFeature : Type where
  id : String
  name : String
  verticalRise : ℚ
  duration : ℚ
  connectsTo : List String
  coordinates : List Coord
deriving DecidableEq, Repr

/-- A slope feature: the fields of `SlopeProperties` plus its geometry that the
route-calculation core reads. -/
structure SlopeFeature : Type where
  id : String
  name : String
  difficulty : Difficulty
  length : ℚ
  verticalDrop : ℚ
  connectsTo : List String
  bidirectional : Bool
  coordinates : List Coord
deriving DecidableEq, Repr

/-- The ambient environment: the static catalog (the `lifts.json` /
`slopes.json` collections) and the distance function standing for the
floating-point `haversineDistance`. -/
structure Env : Type where
  lifts : List LiftFeature
  slopes : List SlopeFeature
  hdist : Coord → Coord → ℚ

/-- `RouteSegment` from `types/index.ts`. -/
structure RouteSegment : Type where
  type : SegType
  id : String
  name : String
deriving DecidableEq, Repr

/-- `RoutePoint`: a search anchor `(type, id, position)` as read by
`getPointLocation`. -/
structure RoutePoint : Type where
  type : SegType
  id : String
  position : PointPosition
deriving DecidableEq, Repr

/-- `ValidationResult` from `types/index.ts`. -/
structure ValidationResult : Type where
  isValid : Bool
  message : Option String
deriving DecidableEq, Repr

/-- The `difficultyBreakdown` record of `RouteStats`. -/
structure DifficultyBreakdown : Type where
  green : ℕ
  blue : ℕ
  red : ℕ
  black : ℕ
deriving DecidableEq, Repr

/-- `RouteStats` from `types/index.ts`; `estimatedTime` is the value after
`Math.round`, hence an integer. -/
structure RouteStats : Type where
  totalVerticalUp : ℚ
  totalVerticalDown : ℚ
  estimatedTime : ℤ
  liftCount : ℕ
  slopeCount : ℕ
  difficultyBreakdown : DifficultyBreakdown
deriving DecidableEq, Repr

/-- `PathfindingResult` from the path-finder module. -/
structure PathfindingResult : Type where
  success : Bool
  route : List RouteSegment
  message : Option String
deriving DecidableEq, Repr

/-- `CONNECTION_THRESHOLD = 50` metres. -/
def CONNECTION_THRESHOLD : ℚ := 50

/-- `AVERAGE_SPEEDS` table (km/h). -/
def AVERAGE_SPEEDS : Difficulty → ℚ
  | .green => 25
  | .blue => 30
  | .red => 35
  | .black => 40

/-- `DIFFICULTY_ORDER` table. -/
def DIFFICULTY_ORDER : Difficulty → ℕ
  | .green => 0
  | .blue => 1
  | .red => 2
  | .black => 3

/-- The id namespace marker tested by `id.startsWith('lift-')`. -/
def liftIdMarker : String := "lift-"

/-- `id.startsWith(pre)`, computed over the character lists so that the
kernel can evaluate it. -/
def strStartsWith (s pre : String) : Bool :=
  pre.data.isPrefixOf s.data

/-- `JavaScript Math.round`: round half up (`Rat.floor` is `⌊·⌋` on `ℚ`). -/
def jsRound (q : ℚ) : ℤ := Rat.floor (q + 1 / 2)

/-- `getLiftById`. -/
def getLiftById (env : Env) (id : String) : Option LiftFeature :=
  env.lifts.find? (fun f => f.id = id)

/-- `getSlopeById`. -/
def getSlopeById (env : Env) (id : String) : Option SlopeFeature :=
  env.slopes.find? (fun f => f.id = id)

/-- Per-slope time estimate in minutes: `(length / 1000 / speed) * 60`. -/
def slopeTimeMinutes (slope : SlopeFeature) : ℚ :=
  slope.length / 1000 / AVERAGE_SPEEDS slope.difficulty * 60

/-- Accumulator mirroring the mutable locals of `calculateRouteStats`
(`estimatedTime` still unrounded). -/
structure StatsAcc : Type where
  totalVerticalUp : ℚ
  totalVerticalDown : ℚ
  estimatedTime : ℚ
  liftCount : ℕ
  slopeCount : ℕ
  difficultyBreakdown : DifficultyBreakdown
deriving DecidableEq, Repr

/-- `difficultyBreakdown[difficulty]++`. -/
def bumpBreakdown (b : DifficultyBreakdown) : Difficulty → DifficultyBreakdown
  | .green => { b with green := b.green + 1 }
  | .blue => { b with blue := b.blue + 1 }
  | .red => { b with red := b.red + 1 }
  | .black => { b with black := b.black + 1 }

/-- One iteration of the `for (const segment of route)` loop of
`calculateRouteStats`. -/
def statsStep (env : Env) (acc : StatsAcc) (segment : RouteSegment) : StatsAcc :=
  match segment.type with
  | .lift =>
    match getLiftById env segment.id with
    | some lift =>
      { acc with
        totalVerticalUp := acc.totalVerticalUp + lift.verticalRise
        estimatedTime := acc.estimatedTime + lift.duration
        liftCount := acc.liftCount + 1 }
    | none => acc
  | .slope =>
    match getSlopeById env segment.id with
    | some slope =>
      { acc with
        totalVerticalDown := acc.totalVerticalDown + slope.verticalDrop
        estimatedTime := acc.estimatedTime + slopeTimeMinutes slope
        slopeCount := acc.slopeCount + 1
        difficultyBreakdown := bumpBreakdown acc.difficultyBreakdown slope.difficulty }
    | none => acc

/-- Initial accumulator of `calculateRouteStats`. -/
def statsInit : StatsAcc :=
  { totalVerticalUp := 0
    totalVerticalDown := 0
    estimatedTime := 0
    liftCount := 0
    slopeCount := 0
    difficultyBreakdown := { green := 0, blue := 0, red := 0, black := 0 } }

/-- `calculateRouteStats`. -/
def calculateRouteStats (env : Env) (route : List RouteSegment) : RouteStats :=
  let a := route.foldl (statsStep env) statsInit
  { totalVerticalUp := a.totalVerticalUp
    totalVerticalDown := a.totalVerticalDown
    estimatedTime := jsRound a.estimatedTime
    liftCount := a.liftCount
    slopeCount := a.slopeCount
    difficultyBreakdown := a.difficultyBreakdown }

/-- `getSegmentEndCoords`: last coordinate of the segment, `none` when the
segment is unresolvable (or its geometry empty, where JS yields `undefined`). -/
def getSegmentEndCoords (env : Env) (segment : RouteSegment) : Option Coord :=
  match segment.type with
  | .lift => (getLiftById env segment.id).bind (fun l => l.coordinates.getLast?)
  | .slope => (getSlopeById env segment.id).bind (fun s => s.coordinates.getLast?)

/-- `getSegmentStartCoords`. -/
def getSegmentStartCoords (env : Env) (segment : RouteSegment) : Option Coord :=
  match segment.type with
  | .lift => (getLiftById env segment.id).bind (fun l => l.coordinates.head?)
  | .slope => (getSlopeById env segment.id).bind (fun s => s.coordinates.head?)

/-- `getSegmentConnections` (complete variant: lifts carry a precomputed
`connectsTo` array too). -/
def getSegmentConnections (env : Env) (segment : RouteSegment) : List String :=
  match segment.type with
  | .slope => ((getSlopeById env segment.id).map (fun s => s.connectsTo)).getD []
  | .lift => ((getLiftById env segment.id).map (fun l => l.connectsTo)).getD []

/-- The JS guard `a && b && haversineDistance(a, b) <= CONNECTION_THRESHOLD`
on two optional coordinates. -/
def nearOpt (env : Env) : Option Coord → Option Coord → Bool
  | some a, some b => decide (env.hdist a b ≤ CONNECTION_THRESHOLD)
  | _, _ => false

/-- Wrap a name in double quotes, as the template literals do. -/
def quoted (s : String) : String := "\x22" ++ s ++ "\x22"

/-- The default rejection reason string. -/
def notAdjacentReason : String := "These segments are not adjacent."

/-- The wrong-direction (uphill) rejection reason string. -/
def wrongDirectionReason (newName : String) : String :=
  quoted newName ++ " goes the wrong direction from here (would need to ski uphill)."

/-- The full rejection message: `"new" doesn't connect to "last". reason`. -/
def connectionFailMessage (newName lastName reason : String) : String :=
  quoted newName ++ " doesn\x27t connect to " ++ quoted lastName ++ ". " ++ reason

/-- `validateConnection` (complete variant, with the wrong-direction hint). -/
def validateConnection (env : Env) (currentRoute : List RouteSegment)
    (newSegment : RouteSegment) : ValidationResult :=
  match currentRoute.getLast? with
  | none => { isValid := true, message := none }
  | some lastSegment =>
    let connections := getSegmentConnections env lastSegment
    if newSegment.id ∈ connections then { isValid := true, message := none }
    else
      let lastEnd := getSegmentEndCoords env lastSegment
      let newStart := getSegmentStartCoords env newSegment
      if nearOpt env lastEnd newStart then { isValid := true, message := none }
      else
        let reason :=
          match newSegment.type with
          | .slope =>
            if nearOpt env lastEnd (getSegmentEndCoords env newSegment) then
              wrongDirectionReason newSegment.name
            else notAdjacentReason
          | .lift => notAdjacentReason
        { isValid := false
          message := some (connectionFailMessage newSegment.name lastSegment.name reason) }

/-- `getPointLocation`: resolve a `RoutePoint` to a coordinate. -/
def getPointLocation (env : Env) (point : RoutePoint) : Option Coord :=
  match point.type with
  | .lift =>
    (getLiftById env point.id).bind (fun l =>
      match point.position with
      | .start => l.coordinates.head?
      | .endPos => l.coordinates.getLast?)
  | .slope =>
    (getSlopeById env point.id).bind (fun s =>
      match point.position with
      | .start => s.coordinates.head?
      | .endPos => s.coordinates.getLast?)

/-- `getSegmentTimeCost`: note the JS `lift?.properties.duration || 5`, which
also replaces a zero duration by 5. -/
def getSegmentTimeCost (env : Env) (id : String) : ℚ :=
  if strStartsWith id liftIdMarker then
    match getLiftById env id with
    | none => 5
    | some lift => if lift.duration = 0 then 5 else lift.duration
  else
    match getSlopeById env id with
    | none => 5
    | some slope => slopeTimeMinutes slope

/-- `getSegmentDifficulty` (null for `lift-*` ids and unresolvable slopes). -/
def getSegmentDifficulty (env : Env) (id : String) : Option Difficulty :=
  if strStartsWith id liftIdMarker then none
  else (getSlopeById env id).map (fun s => s.difficulty)

/-- `isWithinDifficultyLimit`. -/
def isWithinDifficultyLimit (env : Env) (id : String)
    (maxDifficulty : Option Difficulty) : Bool :=
  match maxDifficulty with
  | none => true
  | some maxD =>
    match getSegmentDifficulty env id with
    | none => true
    | some segDiff => decide (DIFFICULTY_ORDER segDiff ≤ DIFFICULTY_ORDER maxD)

/-- The `{type, name}` record returned by `getSegmentInfo`. -/
structure SegmentInfo : Type where
  type : SegType
  name : String
deriving DecidableEq, Repr

/-- `getSegmentInfo`. -/
def getSegmentInfo (env : Env) (id : String) : Option SegmentInfo :=
  if strStartsWith id liftIdMarker then
    (getLiftById env id).map (fun l => { type := SegType.lift, name := l.name })
  else
    (getSlopeById env id).map (fun s => { type := SegType.slope, name := s.name })

/-- `getSegmentEndById`. -/
def getSegmentEndById (env : Env) (id : String) : Option Coord :=
  if strStartsWith id liftIdMarker then
    (getLiftById env id).bind (fun l => l.coordinates.getLast?)
  else
    (getSlopeById env id).bind (fun s => s.coordinates.getLast?)

/-- `getConnectionsById`. -/
def getConnectionsById (env : Env) (id : String) : List String :=
  if strStartsWith id liftIdMarker then
    ((getLiftById env id).map (fun l => l.connectsTo)).getD []
  else
    ((getSlopeById env id).map (fun s => s.connectsTo)).getD []

/-- Deduplication keeping first occurrences: `[...new Set(results)]`. -/
def dedupFirstAux (seen : List String) : List String → List String
  | [] => []
  | a :: l => if a ∈ seen then dedupFirstAux seen l
              else a :: dedupFirstAux (a :: seen) l

/-- `[...new Set(results)]`. -/
def dedupFirst (l : List String) : List String := dedupFirstAux [] l

/-- `findSegmentsStartingNear`. -/
def findSegmentsStartingNear (env : Env) (location : Coord) : List String :=
  let liftIds := env.lifts.filterMap (fun lift =>
    if nearOpt env (some location) lift.coordinates.head? then some lift.id else none)
  let slopeIds := (env.slopes.map (fun slope =>
    (if nearOpt env (some location) slope.coordinates.head? then [slope.id] else []) ++
    (if slope.bidirectional then
      (if nearOpt env (some location) slope.coordinates.getLast? then [slope.id] else [])
     else []))).flatten
  dedupFirst (liftIds ++ slopeIds)

/-- `findSegmentsEndingNear`. -/
def findSegmentsEndingNear (env : Env) (location : Coord) : List String :=
  let liftIds := env.lifts.filterMap (fun lift =>
    if nearOpt env (some location) lift.coordinates.getLast? then some lift.id else none)
  let slopeIds := (env.slopes.map (fun slope =>
    (if nearOpt env (some location) slope.coordinates.getLast? then [slope.id] else []) ++
    (if slope.bidirectional then
      (if nearOpt env (some location) slope.coordinates.head? then [slope.id] else [])
     else []))).flatten
  dedupFirst (liftIds ++ slopeIds)

/-- An entry `[f_score, g_score, segment_id, path]` of the open list. -/
structure QueueItem : Type where
  f : ℚ
  g : ℚ
  id : String
  path : List String
deriving DecidableEq, Repr

/-- Stable insertion by f-score (equal scores keep their relative order, as
the ES2019-stable `openSet.sort((a, b) => a[0] - b[0])` does). -/
def orderedInsertByF (a : QueueItem) : List QueueItem → List QueueItem
  | [] => [a]
  | b :: l => if a.f ≤ b.f then a :: b :: l else b :: orderedInsertByF a l

/-- Stable sort of the open list by ascending f-score. -/
def sortByF (l : List QueueItem) : List QueueItem :=
  l.foldr orderedInsertByF []

/-- The A* heuristic: straight-line distance from the segment's end to the
goal, at 30 km/h, in minutes. -/
def heuristic (env : Env) (endLocation : Coord) (segmentId : String) : ℚ :=
  match getSegmentEndById env segmentId with
  | none => 0
  | some segEnd => env.hdist segEnd endLocation / 1000 / 30 * 60

/-- The body of the neighbour loop: `continue` on visited or
difficulty-inadmissible ids, otherwise push with updated g/f and path. -/
def expandNeighbor (env : Env) (endLocation : Coord)
    (maxDifficulty : Option Difficulty) (visited : List String) (gScore : ℚ)
    (path : List String) (nextId : String) : Option QueueItem :=
  if nextId ∈ visited then none
  else if isWithinDifficultyLimit env nextId maxDifficulty then
    let nextCost := gScore + getSegmentTimeCost env nextId
    some { f := nextCost + heuristic env endLocation nextId
           g := nextCost
           id := nextId
           path := path ++ [nextId] }
  else none

/-- Turn a path of segment ids into `RouteSegment`s, skipping unresolvable
ids as the route-building loop does. -/
def buildRoute (env : Env) (path : List String) : List RouteSegment :=
  path.filterMap (fun segId =>
    (getSegmentInfo env segId).map (fun info =>
      { type := info.type, id := segId, name := info.name }))

/-- `'No route found between these points'`. -/
def noRouteFoundMsg : String := "No route found between these points"

/-- `'Search exceeded maximum iterations'`. -/
def searchBudgetMsg : String := "Search exceeded maximum iterations"

/-- `'Invalid start or end point'`. -/
def invalidPointMsg : String := "Invalid start or end point"

/-- `'No segments found near start point'`. -/
def noStartSegmentsMsg : String := "No segments found near start point"

/-- `'No segments found near end point'`. -/
def noEndSegmentsMsg : String := "No segments found near end point"

/-- `maxIterations = 50000`. -/
def maxIterations : ℕ := 50000

/-- Result of the search loop plus instrumentation: the remaining fuel at
exit (`finalFuel = maxIterations - iterations`), whether the open list was
empty at exit, and the list of expanded (visited-and-explored) ids in
order. -/
structure LoopState : Type where
  result : PathfindingResult
  finalFuel : ℕ
  finalOpenEmpty : Bool
  expandedLog : List String
deriving Repr

/-- The A* `while (openSet.length > 0 && iterations < maxIterations)` loop,
as structural recursion on the remaining fuel. The two post-loop returns are
placed at the corresponding exits: fuel exhausted (`iterations >=
maxIterations`) yields the budget message, an empty open list with fuel left
yields the no-route message. -/
def astarLoop (env : Env) (goalSegments : List String) (endLocation : Coord)
    (maxDifficulty : Option Difficulty) :
    ℕ → List QueueItem → List String → List String → LoopState
  | 0, openSet, _, log =>
    { result := { success := false, route := [], message := some searchBudgetMsg }
      finalFuel := 0
      finalOpenEmpty := openSet.isEmpty
      expandedLog := log }
  | fuel + 1, [], _, log =>
    { result := { success := false, route := [], message := some noRouteFoundMsg }
      finalFuel := fuel + 1
      finalOpenEmpty := true
      expandedLog := log }
  | fuel + 1, current :: rest, visited, log =>
    if current.id ∈ goalSegments then
      { result := { success := true
                    route := buildRoute env current.path
                    message := none }
        finalFuel := fuel
        finalOpenEmpty := rest.isEmpty
        expandedLog := log }
    else if current.id ∈ visited then
      astarLoop env goalSegments endLocation maxDifficulty fuel rest visited log
    else
      let visited' := current.id :: visited
      let newItems := (getConnectionsById env current.id).filterMap
        (expandNeighbor env endLocation maxDifficulty visited' current.g current.path)
      astarLoop env goalSegments endLocation maxDifficulty fuel
        (sortByF (rest ++ newItems)) visited' (log ++ [current.id])

/-- An early-return `LoopState` for the pre-loop failure exits of
`findRoute` (no iteration was consumed). -/
def earlyFail (msg : String) : LoopState :=
  { result := { success := false, route := [], message := some msg }
    finalFuel := maxIterations
    finalOpenEmpty := true
    expandedLog := [] }

/-- `findRoute`, instrumented: performs the endpoint resolution, the seeding
of the open list, and runs the search loop; returns the full `LoopState`. -/
def findRouteState (env : Env) (startPoint endPoint : RoutePoint)
    (maxDifficulty : Option Difficulty) : LoopState :=
  match getPointLocation env startPoint, getPointLocation env endPoint with
  | some startLocation, some endLocation =>
    let startSegments := findSegmentsStartingNear env startLocation
    if startSegments.isEmpty then earlyFail noStartSegmentsMsg
    else
      let goalSegments := findSegmentsEndingNear env endLocation
      if goalSegments.isEmpty then earlyFail noEndSegmentsMsg
      else
        let seeds := startSegments.filterMap (fun segId =>
          if isWithinDifficultyLimit env segId maxDifficulty then
            let cost := getSegmentTimeCost env segId
            some { f := cost + heuristic env endLocation segId
                   g := cost
                   id := segId
                   path := [segId] }
          else none)
        astarLoop env goalSegments endLocation maxDifficulty maxIterations
          (sortByF seeds) [] []
  | _, _ => earlyFail invalidPointMsg

/-- `findRoute`: the public result of the A* search. -/
def findRoute (env : Env) (startPoint endPoint : RoutePoint)
    (maxDifficulty : Option Difficulty) : PathfindingResult :=
  (findRouteState env startPoint endPoint maxDifficulty).result

/-! Spec-side definitions, following the specification words for the
`RouteStatsCalculator` totals ("totals equal the sum of each resolvable
segment's contribution"), to be compared with `calculateRouteStats`. -/

/-- Per the spec: a resolvable lift contributes its `verticalRise`. -/
def specVerticalUpContribution (env : Env) (seg : RouteSegment) : ℚ :=
  match seg.type with
  | .lift => match getLiftById env seg.id with
    | some lift => lift.verticalRise
    | none => 0
  | .slope => 0

/-- Per the spec: a resolvable slope contributes its `verticalDrop`. -/
def specVerticalDownContribution (env : Env) (seg : RouteSegment) : ℚ :=
  match seg.type with
  | .lift => 0
  | .slope => match getSlopeById env seg.id with
    | some slope => slope.verticalDrop
    | none => 0

/-- Per the spec: estimated time is the lift duration, or the slope length
divided by the difficulty speed (in minutes). -/
def specTimeContribution (env : Env) (seg : RouteSegment) : ℚ :=
  match seg.type with
  | .lift => match getLiftById env seg.id with
    | some lift => lift.duration
    | none => 0
  | .slope => match getSlopeById env seg.id with
    | some slope => slopeTimeMinutes slope
    | none => 0

/-- Sum of the spec-side vertical-rise contributions. -/
def specVerticalUpSum (env : Env) (route : List RouteSegment) : ℚ :=
  (route.map (specVerticalUpContribution env)).sum

/-- Sum of the spec-side vertical-drop contributions. -/
def specVerticalDownSum (env : Env) (route : List RouteSegment) : ℚ :=
  (route.map (specVerticalDownContribution env)).sum

/-- Sum of the spec-side estimated-time contributions. -/
def specEstimatedTimeSum (env : Env) (route : List RouteSegment) : ℚ :=
  (route.map (specTimeContribution env)).sum

/-- Total of the four difficulty histogram counts. -/
def breakdownTotal (b : DifficultyBreakdown) : ℕ :=
  b.green + b.blue + b.red + b.black

/-- Whether a `RouteSegment`'s id resolves in the catalog (under its own
declared kind, as `calculateRouteStats` looks it up). -/
def segmentResolvable (env : Env) (seg : RouteSegment) : Bool :=
  match seg.type with
  | .lift => (getLiftById env seg.id).isSome
  | .slope => (getSlopeById env seg.id).isSome

/-! Concrete environments used to instantiate theorems with hypotheses and
to exhibit counterexamples. -/

/-- A distance function that makes every pair of points coincide. -/
def zeroDist : Coord → Coord → ℚ := fun _ _ => 0

/-- A single green slope of length 1000 m. -/
def greenSlope : SlopeFeature :=
  { id := "piste-a"
    name := "A"
    difficulty := Difficulty.green
    length := 1000
    verticalDrop := 200
    connectsTo := []
    bidirectional := false
    coordinates := [(0, 0), (1, 0)] }

/-- Catalog with only `greenSlope`. -/
def envGreen : Env := { lifts := [], slopes := [greenSlope], hdist := zeroDist }

/-- A single black slope of length 1000 m. -/
def blackSlope : SlopeFeature :=
  { id := "piste-a"
    name := "A"
    difficulty := Difficulty.black
    length := 1000
    verticalDrop := 300
    connectsTo := []
    bidirectional := false
    coordinates := [(0, 0), (1, 0)] }

/-- Catalog with only `blackSlope`. -/
def envBlack : Env := { lifts := [], slopes := [blackSlope], hdist := zeroDist }

/-- The `RoutePoint` at the entry of the slope `piste-a`. -/
def startA : RoutePoint :=
  { type := SegType.slope, id := "piste-a", position := PointPosition.start }

/-- The `RoutePoint` at the exit of the slope `piste-a`. -/
def endA : RoutePoint :=
  { type := SegType.slope, id := "piste-a", position := PointPosition.endPos }

/-- The route `[piste-a]` as a `RouteSegment` list. -/
def routeGreen : List RouteSegment :=
  [{ type := SegType.slope, id := "piste-a", name := "A" }]

/-- Slope `A` used in the wrong-direction counterexample: exits at `(1, 1)`. -/
def slopeA : SlopeFeature :=
  { id := "piste-x"
    name := "A"
    difficulty := Difficulty.blue
    length := 500
    verticalDrop := 100
    connectsTo := []
    bidirectional := false
    coordinates := [(0, 0), (1, 1)] }

/-- Lift `B` used in the wrong-direction counterexample: boards at `(2, 2)`,
tops out at `(3, 3)`. -/
def liftB : LiftFeature :=
  { id := "lift-b"
    name := "B"
    verticalRise := 300
    duration := 6
    connectsTo := []
    coordinates := [(2, 2), (3, 3)] }

/-- Distance table: `A`'s exit `(1, 1)` is 10 m from `B`'s top `(3, 3)`, but
100 m from every other distinct point (in particular from `B`'s boarding
point `(2, 2)`). -/
def distTable : Coord → Coord → ℚ := fun c d =>
  if c = d then 0
  else if c = ((1 : ℚ), (1 : ℚ)) ∧ d = ((3 : ℚ), (3 : ℚ)) then 10
  else 100

/-- Catalog with `slopeA` and `liftB` under `distTable`. -/
def envAB : Env := { lifts := [liftB], slopes := [slopeA], hdist := distTable }

/-- Slope `A` as a `RouteSegment`. -/
def segA : RouteSegment :=
  { type := SegType.slope, id := "piste-x", name := "A" }

/-- The one-segment route `[A]`. -/
def routeA : List RouteSegment := [segA]

/-- The candidate lift `B`. -/
def candB : RouteSegment :=
  { type := SegType.lift, id := "lift-b", name := "B" }

/-- Number of resolvable slope segments in a list. -/
def resolvedSlopeCount (env : Env) (route : List RouteSegment) : ℕ :=
  (route.filter (fun seg =>
    seg.type = SegType.slope ∧ segmentResolvable env seg = true)).length

/-- Whether one segment counts as a resolvable slope (0 or 1). -/
def segSlopeCount (env : Env) (seg : RouteSegment) : ℕ :=
  if seg.type = SegType.slope ∧ segmentResolvable env seg = true then 1 else 0

/-- Invariant of every open-list entry during the A* loop: its path is
duplicate-free, contains only difficulty-admissible ids, and consists of
already-visited ids followed by the entry's own id. -/
def queueItemOK (env : Env) (maxDifficulty : Option Difficulty)
    (visited : List String) (item : QueueItem) : Prop :=
  item.path.Nodup ∧
  (∀ id ∈ item.path, isWithinDifficultyLimit env id maxDifficulty = true) ∧
  ∃ pre, item.path = pre ++ [item.id] ∧ ∀ id ∈ pre, id ∈ visited

/-! # Theorems -/

theorem bumpBreakdown_total (b : DifficultyBreakdown) (d : Difficulty) :
    breakdownTotal (bumpBreakdown b d) = breakdownTotal b + 1 := by
  cases d <;> simp [bumpBreakdown, breakdownTotal] <;> ring

theorem statsStep_unresolvable (env : Env) (acc : StatsAcc) (seg : RouteSegment)
    (h : segmentResolvable env seg = false) : statsStep env acc seg = acc := by
  unfold segmentResolvable at h
  unfold statsStep
  cases htype : seg.type <;> rw [htype] at h <;> simp at h <;> simp [h]

theorem statsStep_up (env : Env) (acc : StatsAcc) (seg : RouteSegment) :
    (statsStep env acc seg).totalVerticalUp =
      acc.totalVerticalUp + specVerticalUpContribution env seg := by
  unfold statsStep specVerticalUpContribution
  cases seg.type
  · cases getLiftById env seg.id <;> simp
  · cases getSlopeById env seg.id <;> simp

theorem statsStep_down (env : Env) (acc : StatsAcc) (seg : RouteSegment) :
    (statsStep env acc seg).totalVerticalDown =
      acc.totalVerticalDown + specVerticalDownContribution env seg := by
  unfold statsStep specVerticalDownContribution
  cases seg.type
  · cases getLiftById env seg.id <;> simp
  · cases getSlopeById env seg.id <;> simp

theorem statsStep_time (env : Env) (acc : StatsAcc) (seg : RouteSegment) :
    (statsStep env acc seg).estimatedTime =
      acc.estimatedTime + specTimeContribution env seg := by
  unfold statsStep specTimeContribution
  cases seg.type
  · cases getLiftById env seg.id <;> simp
  · cases getSlopeById env seg.id <;> simp

theorem statsStep_slopeCount (env : Env) (acc : StatsAcc) (seg : RouteSegment) :
    (statsStep env acc seg).slopeCount =
      acc.slopeCount + segSlopeCount env seg := by
  unfold statsStep segSlopeCount segmentResolvable
  cases htype : seg.type <;>
    simp [htype, List.filter] <;>
    cases hfind : getLiftById env seg.id <;>
    cases hfind2 : getSlopeById env seg.id <;>
    simp [htype, hfind, hfind2]

theorem statsStep_breakdownTotal (env : Env) (acc : StatsAcc) (seg : RouteSegment) :
    breakdownTotal (statsStep env acc seg).difficultyBreakdown =
      breakdownTotal acc.difficultyBreakdown + segSlopeCount env seg := by
  unfold statsStep segSlopeCount segmentResolvable
  cases htype : seg.type <;>
    simp [htype, List.filter] <;>
    cases hfind : getLiftById env seg.id <;>
    cases hfind2 : getSlopeById env seg.id <;>
    simp [htype, hfind, hfind2, bumpBreakdown_total]

theorem foldl_statsStep_up (env : Env) (route : List RouteSegment) :
    ∀ acc : StatsAcc, (route.foldl (statsStep env) acc).totalVerticalUp =
      acc.totalVerticalUp + specVerticalUpSum env route := by
  induction route with
  | nil => intro acc; simp [specVerticalUpSum]
  | cons seg rest ih =>
    intro acc
    rw [List.foldl_cons, ih, statsStep_up]
    unfold specVerticalUpSum
    simp [add_assoc]

theorem foldl_statsStep_down (env : Env) (route : List RouteSegment) :
    ∀ acc : StatsAcc, (route.foldl (statsStep env) acc).totalVerticalDown =
      acc.totalVerticalDown + specVerticalDownSum env route := by
  induction route with
  | nil => intro acc; simp [specVerticalDownSum]
  | cons seg rest ih =>
    intro acc
    rw [List.foldl_cons, ih, statsStep_down]
    unfold specVerticalDownSum
    simp [add_assoc]

theorem foldl_statsStep_time (env : Env) (route : List RouteSegment) :
    ∀ acc : StatsAcc, (route.foldl (statsStep env) acc).estimatedTime =
      acc.estimatedTime + specEstimatedTimeSum env route := by
  induction route with
  | nil => intro acc; simp [specEstimatedTimeSum]
  | cons seg rest ih =>
    intro acc
    rw [List.foldl_cons, ih, statsStep_time]
    unfold specEstimatedTimeSum
    simp [add_assoc]

theorem resolvedSlopeCount_cons (env : Env) (seg : RouteSegment)
    (rest : List RouteSegment) :
    resolvedSlopeCount env (seg :: rest) =
      segSlopeCount env seg + resolvedSlopeCount env rest := by
  unfold resolvedSlopeCount segSlopeCount
  by_cases h : seg.type = SegType.slope ∧ segmentResolvable env seg = true <;>
    simp [List.filter, h] <;> omega

theorem foldl_statsStep_slopeCount (env : Env) (route : List RouteSegment) :
    ∀ acc : StatsAcc, (route.foldl (statsStep env) acc).slopeCount =
      acc.slopeCount + resolvedSlopeCount env route := by
  induction route with
  | nil => intro acc; simp [resolvedSlopeCount]
  | cons seg rest ih =>
    intro acc
    rw [List.foldl_cons, ih, statsStep_slopeCount, resolvedSlopeCount_cons]
    omega

theorem foldl_statsStep_breakdownTotal (env : Env) (route : List RouteSegment) :
    ∀ acc : StatsAcc, breakdownTotal (route.foldl (statsStep env) acc).difficultyBreakdown =
      breakdownTotal acc.difficultyBreakdown + resolvedSlopeCount env route := by
  induction route with
  | nil => intro acc; simp [resolvedSlopeCount]
  | cons seg rest ih =>
    intro acc
    rw [List.foldl_cons, ih, statsStep_breakdownTotal, resolvedSlopeCount_cons]
    omega

theorem foldl_statsStep_filter (env : Env) (route : List RouteSegment) :
    ∀ acc : StatsAcc, route.foldl (statsStep env) acc =
      (route.filter (segmentResolvable env)).foldl (statsStep env) acc := by
  induction route with
  | nil => intro acc; rfl
  | cons seg rest ih =>
    intro acc
    cases h : segmentResolvable env seg
    · rw [List.foldl_cons, statsStep_unresolvable env acc seg h]
      simp [List.filter, h, ih]
    · simp [List.filter, h, List.foldl_cons, ih]

/-- C4 (counterexample): on the one-segment route over a green slope of
length 1000 m, the returned `estimatedTime` is the rounded value 2, not the
contribution sum 12/5 = 2.4 minutes, so the returned totals are not literally
equal to the sums of the contributions. -/
theorem calculateRouteStats_time_not_exact :
    ((calculateRouteStats envGreen routeGreen).estimatedTime : ℚ) ≠
      specEstimatedTimeSum envGreen routeGreen := by
  decide

/-- C4 (amended): `calculateRouteStats` returns the exact sums of the
resolvable segments' vertical-rise and vertical-drop contributions, the
estimated time equal to the contribution sum rounded to the nearest minute
(`Math.round`, i.e. `⌊x + 1/2⌋`), and a difficulty histogram whose four
counts sum exactly to the returned slope count. -/
theorem calculateRouteStats_totals (env : Env) (route : List RouteSegment) :
    (calculateRouteStats env route).totalVerticalUp = specVerticalUpSum env route ∧
    (calculateRouteStats env route).totalVerticalDown = specVerticalDownSum env route ∧
    (calculateRouteStats env route).estimatedTime =
      jsRound (specEstimatedTimeSum env route) ∧
    breakdownTotal (calculateRouteStats env route).difficultyBreakdown =
      (calculateRouteStats env route).slopeCount := by
  unfold calculateRouteStats
  refine ⟨?_, ?_, ?_, ?_⟩
  · simp [foldl_statsStep_up, statsInit]
  · simp [foldl_statsStep_down, statsInit]
  · simp [foldl_statsStep_time, statsInit]
  · simp only [foldl_statsStep_breakdownTotal, foldl_statsStep_slopeCount]
    simp [statsInit, breakdownTotal]

/-- C8: `calculateRouteStats` is total and treats unresolvable segment ids as
if they were absent: the aggregate over any list equals the aggregate over
the sublist of resolvable segments. -/
theorem calculateRouteStats_skips_unresolvable (env : Env)
    (route : List RouteSegment) :
    calculateRouteStats env route =
      calculateRouteStats env (route.filter (segmentResolvable env)) := by
  unfold calculateRouteStats
  rw [foldl_statsStep_filter]

theorem nearOpt_eq_true_iff (env : Env) (a b : Option Coord) :
    nearOpt env a b = true ↔
      ∃ x y, a = some x ∧ b = some y ∧ env.hdist x y ≤ CONNECTION_THRESHOLD := by
  cases a <;> cases b <;> simp [nearOpt]

/-- C1: `validateConnection` accepts exactly when the route is empty, or the
candidate's id appears in the connections list of the last route segment, or
both geometry endpoints resolve and the (haversine) distance from the last
segment's end to the candidate's start is at most the 50 m threshold. -/
theorem validateConnection_valid_iff (env : Env) (currentRoute : List RouteSegment)
    (newSegment : RouteSegment) :
    (validateConnection env currentRoute newSegment).isValid = true ↔
      (currentRoute = [] ∨
        ∃ lastSegment, currentRoute.getLast? = some lastSegment ∧
          (newSegment.id ∈ getSegmentConnections env lastSegment ∨
            ∃ lastEnd newStart,
              getSegmentEndCoords env lastSegment = some lastEnd ∧
              getSegmentStartCoords env newSegment = some newStart ∧
              env.hdist lastEnd newStart ≤ CONNECTION_THRESHOLD)) := by
  cases hl : currentRoute.getLast? with
  | none =>
    have hnil : currentRoute = [] := List.getLast?_eq_none_iff.mp hl
    simp [validateConnection, hnil]
  | some lastSegment =>
    have hne : currentRoute ≠ [] := by
      intro hnil
      rw [hnil] at hl
      simp at hl
    constructor
    · intro h
      by_cases hmem : newSegment.id ∈ getSegmentConnections env lastSegment
      · exact Or.inr ⟨lastSegment, rfl, Or.inl hmem⟩
      · by_cases hnear : nearOpt env (getSegmentEndCoords env lastSegment)
          (getSegmentStartCoords env newSegment) = true
        · obtain ⟨x, y, hx, hy, hd⟩ := (nearOpt_eq_true_iff env _ _).mp hnear
          exact Or.inr ⟨lastSegment, rfl, Or.inr ⟨x, y, hx, hy, hd⟩⟩
        · simp [validateConnection, hl, hmem, hnear] at h
    · intro h
      rcases h with hnil | ⟨l, hleq, hor⟩
      · exact absurd hnil hne
      · injection hleq with he
        subst he
        rcases hor with hmem | ⟨x, y, hx, hy, hd⟩
        · simp [validateConnection, hl, hmem]
        · have hnear : nearOpt env (getSegmentEndCoords env lastSegment)
            (getSegmentStartCoords env newSegment) = true :=
            (nearOpt_eq_true_iff env _ _).mpr ⟨x, y, hx, hy, hd⟩
          by_cases hmem : newSegment.id ∈ getSegmentConnections env lastSegment
          · simp [validateConnection, hl, hmem]
          · simp [validateConnection, hl, hmem, hnear]

/-- C6 (counterexample): the route `[A]` (a slope exiting at `(1,1)`) with
candidate lift `B` whose top `(3,3)` is 10 m from `A`'s exit while its
boarding point is 100 m away: the append is rejected and the candidate's end
lies within the connection threshold of the prior exit, yet the message
carries the default reason, not the directional wrong-way hint (the hint is
only produced for slope candidates). -/
theorem validateConnection_lift_no_hint :
    routeA.getLast? = some segA ∧
    (validateConnection envAB routeA candB).isValid = false ∧
    nearOpt envAB (getSegmentEndCoords envAB segA)
      (getSegmentEndCoords envAB candB) = true ∧
    (validateConnection envAB routeA candB).message =
      some (connectionFailMessage "B" "A" notAdjacentReason) ∧
    connectionFailMessage "B" "A" notAdjacentReason ≠
      connectionFailMessage "B" "A" (wrongDirectionReason "B") := by
  decide

theorem notAdjacent_ne_wrongDirection (name : String) :
    notAdjacentReason ≠ wrongDirectionReason name := by
  intro h
  have h2 : notAdjacentReason.data.head? = (wrongDirectionReason name).data.head? := by
    rw [h]
  have h3 : (wrongDirectionReason name).data.head? = some '\x22' := by
    unfold wrongDirectionReason quoted
    rw [String.data_append, String.data_append, String.data_append]
    rfl
  rw [h3] at h2
  have h4 : notAdjacentReason.data.head? = some 'T' := rfl
  rw [h4] at h2
  exact absurd h2 (by decide)

/-- C6 (amended): on any rejected append the message is exactly the
diagnostic naming both the candidate and the last route segment, and its
reason part is the directional wrong-way/uphill hint precisely when the
candidate is a slope whose end (with both coordinates resolvable) lies
within the connection threshold of the prior segment's exit; in every other
case — in particular for every lift candidate — it is the default
not-adjacent reason. The two reasons are distinct strings. -/
theorem validateConnection_failure_message (env : Env)
    (currentRoute : List RouteSegment) (newSegment lastSegment : RouteSegment)
    (hlast : currentRoute.getLast? = some lastSegment)
    (hfail : (validateConnection env currentRoute newSegment).isValid = false) :
    (validateConnection env currentRoute newSegment).message =
      some (connectionFailMessage newSegment.name lastSegment.name
        (if newSegment.type = SegType.slope ∧
            nearOpt env (getSegmentEndCoords env lastSegment)
              (getSegmentEndCoords env newSegment) = true
         then wrongDirectionReason newSegment.name
         else notAdjacentReason)) ∧
    notAdjacentReason ≠ wrongDirectionReason newSegment.name := by
  refine ⟨?_, notAdjacent_ne_wrongDirection newSegment.name⟩
  unfold validateConnection at hfail ⊢
  rw [hlast] at hfail ⊢
  by_cases hmem : newSegment.id ∈ getSegmentConnections env lastSegment
  · simp [hmem] at hfail
  · by_cases hnear : nearOpt env (getSegmentEndCoords env lastSegment)
      (getSegmentStartCoords env newSegment) = true
    · simp [hmem, hnear] at hfail
    · cases htype : newSegment.type with
      | lift =>
        have hcond : ¬(SegType.lift = SegType.slope ∧
            nearOpt env (getSegmentEndCoords env lastSegment)
              (getSegmentEndCoords env newSegment) = true) := by
          rintro ⟨h1, -⟩
          simp at h1
        rw [if_neg hcond]
        simp [hmem, hnear]
      | slope =>
        by_cases hend : nearOpt env (getSegmentEndCoords env lastSegment)
          (getSegmentEndCoords env newSegment) = true
        · rw [if_pos ⟨rfl, hend⟩]
          simp [hmem, hnear, hend]
        · have hcond : ¬(SegType.slope = SegType.slope ∧
              nearOpt env (getSegmentEndCoords env lastSegment)
                (getSegmentEndCoords env newSegment) = true) := by
            rintro ⟨-, hn⟩
            exact hend hn
          rw [if_neg hcond]
          simp [hmem, hnear, hend]

/-- C6 (witness for the amended theorem): instantiated on the concrete
rejected append of lift `B` after slope `A`, where the condition selects the
default reason. -/
theorem validateConnection_failure_message_witness :
    (validateConnection envAB routeA candB).message =
      some (connectionFailMessage candB.name segA.name
        (if candB.type = SegType.slope ∧
            nearOpt envAB (getSegmentEndCoords envAB segA)
              (getSegmentEndCoords envAB candB) = true
         then wrongDirectionReason candB.name
         else notAdjacentReason)) ∧
    notAdjacentReason ≠ wrongDirectionReason candB.name :=
  validateConnection_failure_message envAB routeA candB segA (by decide) (by decide)

theorem mem_orderedInsertByF (a x : QueueItem) (l : List QueueItem) :
    x ∈ orderedInsertByF a l ↔ x = a ∨ x ∈ l := by
  induction l with
  | nil => simp [orderedInsertByF]
  | cons b rest ih =>
    unfold orderedInsertByF
    by_cases h : a.f ≤ b.f <;> simp [h, ih] <;> tauto

theorem mem_sortByF (x : QueueItem) (l : List QueueItem) :
    x ∈ sortByF l ↔ x ∈ l := by
  induction l with
  | nil => simp [sortByF]
  | cons b rest ih =>
    have : sortByF (b :: rest) = orderedInsertByF b (sortByF rest) := rfl
    rw [this, mem_orderedInsertByF]
    simp [ih]

theorem buildRoute_map_id (env : Env) (p : List String) :
    (buildRoute env p).map (fun seg => seg.id) =
      p.filter (fun id => (getSegmentInfo env id).isSome) := by
  induction p with
  | nil => rfl
  | cons a rest ih =>
    unfold buildRoute at ih ⊢
    cases h : getSegmentInfo env a <;>
      simp [List.filterMap_cons, List.filter, h, ih]

theorem mem_buildRoute (env : Env) (p : List String) (seg : RouteSegment)
    (h : seg ∈ buildRoute env p) :
    seg.id ∈ p ∧ getSegmentInfo env seg.id =
      some { type := seg.type, name := seg.name } := by
  unfold buildRoute at h
  rw [List.mem_filterMap] at h
  obtain ⟨a, ha, hmap⟩ := h
  rw [Option.map_eq_some'] at hmap
  obtain ⟨info, hinfo, hseg⟩ := hmap
  have hid : seg.id = a := by rw [← hseg]
  have htype : seg.type = info.type := by rw [← hseg]
  have hname : seg.name = info.name := by rw [← hseg]
  subst hid
  rw [htype, hname, hinfo]
  exact ⟨ha, rfl⟩

theorem buildRoute_singleton_len (env : Env) (id : String) :
    (buildRoute env [id]).length ≤ 1 := by
  unfold buildRoute
  cases h : getSegmentInfo env id <;> simp [List.filterMap_cons, h]

theorem expandNeighbor_some (env : Env) (endLoc : Coord)
    (d : Option Difficulty) (visited : List String) (g : ℚ)
    (path : List String) (nextId : String) (item : QueueItem)
    (h : expandNeighbor env endLoc d visited g path nextId = some item) :
    nextId ∉ visited ∧ isWithinDifficultyLimit env nextId d = true ∧
      item.id = nextId ∧ item.path = path ++ [nextId] := by
  unfold expandNeighbor at h
  by_cases hv : nextId ∈ visited
  · simp [hv] at h
  · by_cases hd : isWithinDifficultyLimit env nextId d = true
    · simp [hv, hd] at h
      exact ⟨hv, hd, by rw [← h], by rw [← h]⟩
    · simp [hv, hd] at h

theorem queueItemOK_mono (env : Env) (d : Option Difficulty)
    (v v' : List String) (hsub : ∀ id ∈ v, id ∈ v') (item : QueueItem)
    (h : queueItemOK env d v item) : queueItemOK env d v' item := by
  obtain ⟨h1, h2, pre, h3, h4⟩ := h
  exact ⟨h1, h2, pre, h3, fun id hid => hsub id (h4 id hid)⟩

theorem astarLoop_fail_cases (env : Env) (goal : List String) (endLoc : Coord)
    (d : Option Difficulty) :
    ∀ (fuel : ℕ) (openSet : List QueueItem) (visited log : List String),
    (astarLoop env goal endLoc d fuel openSet visited log).result.success = false →
      (astarLoop env goal endLoc d fuel openSet visited log).result.route = [] ∧
      (((astarLoop env goal endLoc d fuel openSet visited log).result.message =
          some searchBudgetMsg ∧
        (astarLoop env goal endLoc d fuel openSet visited log).finalFuel = 0) ∨
       ((astarLoop env goal endLoc d fuel openSet visited log).result.message =
          some noRouteFoundMsg ∧
        0 < (astarLoop env goal endLoc d fuel openSet visited log).finalFuel ∧
        (astarLoop env goal endLoc d fuel openSet visited log).finalOpenEmpty =
          true)) := by
  intro fuel
  induction fuel with
  | zero =>
    intro openSet visited log _
    exact ⟨rfl, Or.inl ⟨rfl, rfl⟩⟩
  | succ n ih =>
    intro openSet visited log h
    cases openSet with
    | nil => exact ⟨rfl, Or.inr ⟨rfl, Nat.succ_pos n, rfl⟩⟩
    | cons c rest =>
      by_cases hg : c.id ∈ goal
      · simp [astarLoop, hg] at h
      · by_cases hv : c.id ∈ visited
        · simp only [astarLoop, if_neg hg, if_pos hv] at h ⊢
          exact ih rest visited log h
        · simp only [astarLoop, if_neg hg, if_neg hv] at h ⊢
          exact ih _ _ _ h

theorem astarLoop_log_nodup (env : Env) (goal : List String) (endLoc : Coord)
    (d : Option Difficulty) :
    ∀ (fuel : ℕ) (openSet : List QueueItem) (visited log : List String),
    log.Nodup → (∀ id ∈ log, id ∈ visited) →
    (astarLoop env goal endLoc d fuel openSet visited log).expandedLog.Nodup := by
  intro fuel
  induction fuel with
  | zero => intro openSet visited log h1 _; exact h1
  | succ n ih =>
    intro openSet visited log h1 h2
    cases openSet with
    | nil => exact h1
    | cons c rest =>
      by_cases hg : c.id ∈ goal
      · simp only [astarLoop, if_pos hg]
        exact h1
      · by_cases hv : c.id ∈ visited
        · simp only [astarLoop, if_neg hg, if_pos hv]
          exact ih rest visited log h1 h2
        · simp only [astarLoop, if_neg hg, if_neg hv]
          refine ih _ _ _ ?_ ?_
          · have hcl : c.id ∉ log := fun hin => hv (h2 c.id hin)
            simp [List.nodup_append, h1, hcl]
          · intro id hid
            rw [List.mem_append] at hid
            cases hid with
            | inl hin => exact List.mem_cons_of_mem _ (h2 id hin)
            | inr hin =>
              rw [List.mem_singleton] at hin
              rw [hin]
              exact List.mem_cons_self _ _

theorem astarLoop_success_route (env : Env) (goal : List String) (endLoc : Coord)
    (d : Option Difficulty) :
    ∀ (fuel : ℕ) (openSet : List QueueItem) (visited log : List String),
    (∀ item ∈ openSet, queueItemOK env d visited item) →
    (astarLoop env goal endLoc d fuel openSet visited log).result.success = true →
    ∃ p, p.Nodup ∧ (∀ id ∈ p, isWithinDifficultyLimit env id d = true) ∧
      (astarLoop env goal endLoc d fuel openSet visited log).result.route =
        buildRoute env p := by
  intro fuel
  induction fuel with
  | zero => intro openSet visited log _ h; simp [astarLoop] at h
  | succ n ih =>
    intro openSet visited log hok h
    cases openSet with
    | nil => simp [astarLoop] at h
    | cons c rest =>
      by_cases hg : c.id ∈ goal
      · obtain ⟨h1, h2, _⟩ := hok c (List.mem_cons_self c rest)
        refine ⟨c.path, h1, h2, ?_⟩
        simp only [astarLoop, if_pos hg]
      · by_cases hv : c.id ∈ visited
        · simp only [astarLoop, if_neg hg, if_pos hv] at h ⊢
          exact ih rest visited log
            (fun item hitem => hok item (List.mem_cons_of_mem c hitem)) h
        · simp only [astarLoop, if_neg hg, if_neg hv] at h ⊢
          refine ih _ _ _ ?_ h
          intro item hitem
          rw [mem_sortByF, List.mem_append] at hitem
          have hsub : ∀ id ∈ visited, id ∈ c.id :: visited :=
            fun id hid => List.mem_cons_of_mem _ hid
          cases hitem with
          | inl hrest =>
            exact queueItemOK_mono env d visited _ hsub item
              (hok item (List.mem_cons_of_mem c hrest))
          | inr hnew =>
            rw [List.mem_filterMap] at hnew
            obtain ⟨nextId, _, hexp⟩ := hnew
            obtain ⟨hnv, hnd, hnid, hnpath⟩ :=
              expandNeighbor_some env endLoc d _ _ _ _ _ hexp
            obtain ⟨hc1, hc2, pre, hc3, hc4⟩ := hok c (List.mem_cons_self c rest)
            have hpathvis : ∀ id ∈ c.path, id ∈ c.id :: visited := by
              intro id hid
              rw [hc3, List.mem_append] at hid
              cases hid with
              | inl hpre => exact List.mem_cons_of_mem _ (hc4 id hpre)
              | inr hlast =>
                rw [List.mem_singleton] at hlast
                rw [hlast]
                exact List.mem_cons_self _ _
            have hnp : nextId ∉ c.path := fun hin => hnv (hpathvis nextId hin)
            refine ⟨?_, ?_, c.path, ?_, hpathvis⟩
            · rw [hnpath]
              simp [List.nodup_append, hc1, hnp]
            · intro id hid
              rw [hnpath, List.mem_append] at hid
              cases hid with
              | inl hin => exact hc2 id hin
              | inr hin =>
                rw [List.mem_singleton] at hin
                rw [hin]
                exact hnd
            · rw [hnpath, hnid]

theorem findRouteState_success_aux (env : Env) (s e : RoutePoint)
    (d : Option Difficulty) (st : LoopState)
    (hst : findRouteState env s e d = st)
    (h : st.result.success = true) :
    ∃ p, p.Nodup ∧ (∀ id ∈ p, isWithinDifficultyLimit env id d = true) ∧
      st.result.route = buildRoute env p := by
  unfold findRouteState at hst
  split at hst
  · dsimp only at hst
    split at hst
    · rw [← hst] at h
      simp [earlyFail] at h
    · split at hst
      · rw [← hst] at h
        simp [earlyFail] at h
      · rw [← hst] at h ⊢
        refine astarLoop_success_route env _ _ d maxIterations _ [] [] ?_ h
        intro item hitem
        rw [mem_sortByF, List.mem_filterMap] at hitem
        obtain ⟨segId, _, hsome⟩ := hitem
        by_cases hadm : isWithinDifficultyLimit env segId d = true
        · simp [hadm] at hsome
          rw [← hsome]
          exact ⟨by simp, by simp [hadm], [], rfl, by simp⟩
        · simp [hadm] at hsome
  · rw [← hst] at h
    simp [earlyFail] at h

theorem getSegmentInfo_slope_of (env : Env) (id : String) (info : SegmentInfo)
    (h : getSegmentInfo env id = some info) (ht : info.type = SegType.slope) :
    ∃ sl, getSlopeById env id = some sl ∧
      strStartsWith id liftIdMarker = false := by
  unfold getSegmentInfo at h
  cases hsw : strStartsWith id liftIdMarker
  · rw [hsw] at h
    simp at h
    obtain ⟨sl, hsl, _⟩ := h
    exact ⟨sl, hsl, rfl⟩
  · rw [hsw] at h
    simp [Option.map_eq_some'] at h
    obtain ⟨l, _, hinfo⟩ := h
    rw [← hinfo] at ht
    simp at ht

/-- C2: with a maximum difficulty `dmax`, every slope segment of a route
returned by a successful `findRoute` resolves to a slope whose difficulty is
at most `dmax` in the order green < blue < red < black, and ids in the
`lift-` namespace are never excluded by the difficulty filter. -/
theorem findRoute_respects_difficulty (env : Env) (s e : RoutePoint)
    (dmax : Difficulty)
    (h : (findRoute env s e (some dmax)).success = true) :
    (∀ seg ∈ (findRoute env s e (some dmax)).route, seg.type = SegType.slope →
      ∃ sl, getSlopeById env seg.id = some sl ∧
        DIFFICULTY_ORDER sl.difficulty ≤ DIFFICULTY_ORDER dmax) ∧
    (∀ id : String, strStartsWith id liftIdMarker = true →
      isWithinDifficultyLimit env id (some dmax) = true) := by
  constructor
  · intro seg hseg htype
    obtain ⟨p, _, hadm, hroute⟩ :=
      findRouteState_success_aux env s e (some dmax) _ rfl h
    unfold findRoute at hseg
    rw [hroute] at hseg
    obtain ⟨hidmem, hinfo⟩ := mem_buildRoute env p seg hseg
    obtain ⟨sl, hsl, hsw⟩ := getSegmentInfo_slope_of env seg.id _ hinfo htype
    refine ⟨sl, hsl, ?_⟩
    have hlim := hadm seg.id hidmem
    unfold isWithinDifficultyLimit getSegmentDifficulty at hlim
    rw [hsw, hsl] at hlim
    simp at hlim
    exact hlim
  · intro id hsw
    unfold isWithinDifficultyLimit getSegmentDifficulty
    simp [hsw]

/-- C10: the route of any successful `findRoute` is a simple path: no
segment id occurs twice in the returned list. -/
theorem findRoute_route_simple (env : Env) (s e : RoutePoint)
    (d : Option Difficulty) (h : (findRoute env s e d).success = true) :
    ((findRoute env s e d).route.map (fun seg => seg.id)).Nodup := by
  obtain ⟨p, hnodup, _, hroute⟩ := findRouteState_success_aux env s e d _ rfl h
  unfold findRoute
  rw [hroute, buildRoute_map_id]
  exact hnodup.filter _

/-- C9: within one `findRoute` call, each segment id is expanded (removed
from the open list un-visited, marked visited and its neighbours pushed) at
most once: the expansion log of the search contains no duplicate id. -/
theorem findRoute_expansions_nodup (env : Env) (s e : RoutePoint)
    (d : Option Difficulty) :
    (findRouteState env s e d).expandedLog.Nodup := by
  suffices hsuff : ∀ st, findRouteState env s e d = st → st.expandedLog.Nodup from
    hsuff _ rfl
  intro st hst
  unfold findRouteState at hst
  split at hst
  · dsimp only at hst
    split at hst
    · rw [← hst]
      simp [earlyFail]
    · split at hst
      · rw [← hst]
        simp [earlyFail]
      · rw [← hst]
        exact astarLoop_log_nodup env _ _ d maxIterations _ [] []
          List.nodup_nil (by simp)
  · rw [← hst]
    simp [earlyFail]

/-- C3: the two loop failure modes of the search are distinguished: an open
list exhausted with remaining fuel (fewer than 50,000 iterations consumed)
yields exactly the no-route-found message, while running out of fuel (the
iteration cap) yields exactly the distinct budget-exceeded message. -/
theorem astarLoop_failure_modes (env : Env) (goal : List String)
    (endLoc : Coord) (d : Option Difficulty) (fuel : ℕ)
    (openSet : List QueueItem) (visited log : List String)
    (hfail : (astarLoop env goal endLoc d fuel openSet visited log).result.success
      = false) :
    ((astarLoop env goal endLoc d fuel openSet visited log).result.message =
        some searchBudgetMsg ↔
      (astarLoop env goal endLoc d fuel openSet visited log).finalFuel = 0) ∧
    ((astarLoop env goal endLoc d fuel openSet visited log).result.message =
        some noRouteFoundMsg ↔
      (0 < (astarLoop env goal endLoc d fuel openSet visited log).finalFuel ∧
       (astarLoop env goal endLoc d fuel openSet visited log).finalOpenEmpty =
         true)) ∧
    searchBudgetMsg ≠ noRouteFoundMsg := by
  have hne : searchBudgetMsg ≠ noRouteFoundMsg := by decide
  obtain ⟨_, hcases⟩ :=
    astarLoop_fail_cases env goal endLoc d fuel openSet visited log hfail
  rcases hcases with ⟨hm, hf⟩ | ⟨hm, hf, ho⟩
  · refine ⟨⟨fun _ => hf, fun _ => hm⟩, ⟨?_, ?_⟩, hne⟩
    · intro hmsg
      rw [hm] at hmsg
      injection hmsg with he
      exact absurd he hne
    · intro hpos
      rw [hf] at hpos
      exact absurd hpos.1 (lt_irrefl 0)
  · refine ⟨⟨?_, ?_⟩, ⟨fun _ => ⟨hf, ho⟩, fun _ => hm⟩, hne⟩
    · intro hmsg
      rw [hm] at hmsg
      injection hmsg with he
      exact absurd he.symm hne
    · intro hzero
      rw [hzero] at hf
      exact absurd hf (lt_irrefl 0)

/-- C7: `findRoute` is deterministic: two results computed from the identical
catalog, start, end and difficulty inputs agree in success flag, route list
and message. -/
theorem findRoute_deterministic (env : Env) (s e : RoutePoint)
    (d : Option Difficulty) (r₁ r₂ : PathfindingResult)
    (h₁ : r₁ = findRoute env s e d) (h₂ : r₂ = findRoute env s e d) :
    r₁.success = r₂.success ∧ r₁.route = r₂.route ∧ r₁.message = r₂.message := by
  subst h₁
  subst h₂
  exact ⟨rfl, rfl, rfl⟩

/-- C5 (counterexample): start and end resolve on the same segment (entry and
exit of the black slope `piste-a`), yet with `maxDifficulty = green` the
segment is excluded from the seeds and `findRoute` returns the no-route
failure instead of a successful single-segment route. -/
theorem findRoute_same_segment_counterexample :
    startA.id = endA.id ∧ startA.position = PointPosition.start ∧
    endA.position = PointPosition.endPos ∧
    (getPointLocation envBlack startA).isSome = true ∧
    (getPointLocation envBlack endA).isSome = true ∧
    findRoute envBlack startA endA (some Difficulty.green) =
      { success := false, route := [], message := some noRouteFoundMsg } := by
  decide

/-- C5 (amended): when start and end resolve to coordinates, the shared
segment is the unique segment starting near the start coordinate, it ends
near the end coordinate, and it passes the difficulty filter, `findRoute`
returns a successful result whose route has at most one segment. -/
theorem findRoute_same_segment (env : Env) (s e : RoutePoint)
    (d : Option Difficulty) (segId : String) (sl el : Coord)
    (hs : getPointLocation env s = some sl)
    (he : getPointLocation env e = some el)
    (hstart : findSegmentsStartingNear env sl = [segId])
    (hgoal : segId ∈ findSegmentsEndingNear env el)
    (hadm : isWithinDifficultyLimit env segId d = true) :
    (findRoute env s e d).success = true ∧
    (findRoute env s e d).route.length ≤ 1 := by
  have hne : (findSegmentsEndingNear env el).isEmpty = false := by
    cases hfe : findSegmentsEndingNear env el
    · rw [hfe] at hgoal
      simp at hgoal
    · rfl
  unfold findRoute findRouteState
  rw [hs, he]
  dsimp only
  rw [hstart, hne]
  simp only [List.isEmpty_cons, if_false, Bool.false_eq_true]
  rw [List.filterMap_cons]
  simp only [hadm, if_true]
  rw [List.filterMap_nil]
  have hsort : ∀ x : QueueItem, sortByF [x] = [x] := fun x => rfl
  rw [hsort]
  rw [show maxIterations = 49999 + 1 from rfl]
  unfold astarLoop
  simp only [hgoal, if_true]
  exact ⟨trivial, buildRoute_singleton_len env segId⟩

/-- C5 (witness for the amended theorem): on the catalog with the single
green slope, searching from its entry to its exit under the green limit
succeeds with an at-most-one-segment route. -/
theorem findRoute_same_segment_witness :
    (findRoute envGreen startA endA (some Difficulty.green)).success = true ∧
    (findRoute envGreen startA endA (some Difficulty.green)).route.length ≤ 1 :=
  findRoute_same_segment envGreen startA endA (some Difficulty.green) "piste-a"
    ((0 : ℚ), (0 : ℚ)) ((1 : ℚ), (0 : ℚ))
    (by decide) (by decide) (by decide) (by decide) (by decide)

/-- C2 (witness): on the single-green-slope catalog with `maxDifficulty =
green`, the search succeeds and the theorem's conclusions hold. -/
theorem findRoute_respects_difficulty_witness :
    (findRoute envGreen startA endA (some Difficulty.green)).success = true ∧
    ((∀ seg ∈ (findRoute envGreen startA endA (some Difficulty.green)).route,
        seg.type = SegType.slope →
        ∃ sl, getSlopeById envGreen seg.id = some sl ∧
          DIFFICULTY_ORDER sl.difficulty ≤ DIFFICULTY_ORDER Difficulty.green) ∧
     (∀ id : String, strStartsWith id liftIdMarker = true →
        isWithinDifficultyLimit envGreen id (some Difficulty.green) = true)) :=
  ⟨by decide,
   findRoute_respects_difficulty envGreen startA endA Difficulty.green (by decide)⟩

/-- C10 (witness): the successful unlimited-difficulty search on the
single-green-slope catalog has duplicate-free route ids. -/
theorem findRoute_route_simple_witness :
    (findRoute envGreen startA endA none).success = true ∧
    ((findRoute envGreen startA endA none).route.map (fun seg => seg.id)).Nodup :=
  ⟨by decide, findRoute_route_simple envGreen startA endA none (by decide)⟩

/-- C3 (witness): the loop run from an already-empty open list with one unit
of fuel fails with the no-route message, and the two failure messages are
distinguished as the theorem states. -/
theorem astarLoop_failure_modes_witness :
    ((astarLoop envGreen [] ((0 : ℚ), (0 : ℚ)) none 1 [] [] []).result.message =
        some searchBudgetMsg ↔
      (astarLoop envGreen [] ((0 : ℚ), (0 : ℚ)) none 1 [] [] []).finalFuel = 0) ∧
    ((astarLoop envGreen [] ((0 : ℚ), (0 : ℚ)) none 1 [] [] []).result.message =
        some noRouteFoundMsg ↔
      (0 < (astarLoop envGreen [] ((0 : ℚ), (0 : ℚ)) none 1 [] [] []).finalFuel ∧
       (astarLoop envGreen [] ((0 : ℚ), (0 : ℚ)) none 1 [] [] []).finalOpenEmpty =
         true)) ∧
    searchBudgetMsg ≠ noRouteFoundMsg :=
  astarLoop_failure_modes envGreen [] ((0 : ℚ), (0 : ℚ)) none 1 [] [] []
    (by decide)

/-- C7 (witness): instantiated determinism on the single-green-slope search. -/
theorem findRoute_deterministic_witness :
    (findRoute envGreen startA endA none).success =
      (findRoute envGreen startA endA none).success ∧
    (findRoute envGreen startA endA none).route =
      (findRoute envGreen startA endA none).route ∧
    (findRoute envGreen startA endA none).message =
      (findRoute envGreen startA endA none).message :=
  findRoute_deterministic envGreen startA endA none _ _ rfl rfl
